import Mathlib

/-!
Verification of the retry/backoff request wrapper in `generateAltText`
(src/App.jsx).  The network-facing loop is embedded shallowly: a mock
endpoint is a function from call index to fetch outcome, and the loop is
a recursive Lean function mirroring the JavaScript `while` loop line by
line, recording the observable trace (number of calls, backoff waits,
final retry counter and delay).
-/

namespace AltTextGen

/-- A parsed HTTP response as `generateAltText` observes it: the numeric
status and the value found at the fixed path
`result?.candidates?.[0]?.content?.parts?.[0]?.text` once the body is
parsed (`none` when the path is absent). -/
structure Response where
  status : Nat
  text : Option String
deriving Repr, DecidableEq

/-- Outcome of one `fetch` call: either a response object, or the call
itself throwing (transport error). -/
inductive FetchResult where
  | resp (r : Response)
  | transportError
deriving Repr, DecidableEq

/-- The Fetch API predicate `response.ok`: status in the inclusive range 200-299. -/
def respOk (r : Response) : Bool :=
  decide (200 ≤ r.status) && decide (r.status ≤ 299)

/-- The constant `maxRetries = 5` (App.jsx line 108). -/
def maxRetries : Nat := 5

/-- The initial value of `delay`, 1000 ms (App.jsx line 107). -/
def baseDelay : Nat := 1000

/-- How the `while` loop terminated. -/
inductive LoopExit where
  | broke (r : Response)
  | condFalse (response : Option Response)
  | threw
deriving Repr, DecidableEq

/-- Observable trace of one run of the retry loop. -/
structure LoopResult where
  exit : LoopExit
  calls : Nat
  waits : List Nat
  finalRetries : Nat
  finalDelay : Nat
deriving Repr, DecidableEq

/-- The retry loop of `generateAltText` (App.jsx lines 111-139).
`script` is the deterministic mock endpoint: `script i` is the outcome of
the `i`-th `fetch`.  State mirrors the JavaScript variables `retries`,
`delay` and `response`; `calls` and `waits` accumulate the trace. -/
def runLoop (script : Nat → FetchResult) (callIdx retries delay : Nat)
    (response : Option Response) (calls : Nat) (waits : List Nat) : LoopResult :=
  if h : retries < maxRetries then
    match script callIdx with
    | .transportError =>
        -- catch block, lines 131-138: retries++, rethrow when exhausted,
        -- otherwise wait and double the delay
        if maxRetries ≤ retries + 1 then
          ⟨.threw, calls + 1, waits, retries + 1, delay⟩
        else
          runLoop script (callIdx + 1) (retries + 1) (2 * delay) response
            (calls + 1) (waits ++ [delay])
    | .resp r =>
        if r.status = 429 then
          -- lines 119-125: wait, double delay, retries++, continue
          runLoop script (callIdx + 1) (retries + 1) (2 * delay) (some r)
            (calls + 1) (waits ++ [delay])
        else if respOk r then
          -- line 130: break on a successful response
          ⟨.broke r, calls + 1, waits, retries, delay⟩
        else
          -- line 128 throws, landing in the same catch block
          if maxRetries ≤ retries + 1 then
            ⟨.threw, calls + 1, waits, retries + 1, delay⟩
          else
            runLoop script (callIdx + 1) (retries + 1) (2 * delay) (some r)
              (calls + 1) (waits ++ [delay])
  else
    ⟨.condFalse response, calls, waits, retries, delay⟩
termination_by maxRetries - retries
decreasing_by
  all_goals simp_all [maxRetries]; omega

/-- Terminal outcome of one `generateAltText` run, as classified by the
code after the loop (App.jsx lines 141-156). -/
inductive Outcome where
  /-- line 149: `setAltText(generatedText)` after a truthy parse. -/
  | success (text : String)
  /-- line 152: the could-not-generate message, reached when the parsed
  text field is absent or empty (falsy). -/
  | noDescription
  /-- line 142: the failed-to-fetch-after-multiple-retries error, thrown
  when the loop ended with `response` still null. -/
  | exhaustedNoResponse
  /-- line 134: an error rethrown out of the loop once `retries`
  reached `maxRetries`, landing in the outer catch (line 154). -/
  | propagatedError
deriving Repr, DecidableEq

/-- Lines 146-153: JavaScript truthiness of
`result?.candidates?.[0]?.content?.parts?.[0]?.text` — both an absent
path (`undefined`) and an empty string are falsy. -/
def parseOutcome (r : Response) : Outcome :=
  match r.text with
  | some t => if t = "" then Outcome.noDescription else Outcome.success t
  | none => Outcome.noDescription

/-- Result of one full `generateAltText` run: the terminal outcome
together with the observable loop trace. -/
structure InferResult where
  outcome : Outcome
  loop : LoopResult
deriving Repr, DecidableEq

/-- The post-loop logic of `generateAltText` (App.jsx lines 141-156).
An error that escaped the loop propagates to the outer catch; otherwise
line 141 checks `response` for null, and a non-null response — including
the last 429 left in `response` when the loop condition ran out — is
parsed for the text field. -/
def classify (lr : LoopResult) : Outcome :=
  match lr.exit with
  | .threw => Outcome.propagatedError
  | .condFalse none => Outcome.exhaustedNoResponse
  | .condFalse (some r) => parseOutcome r
  | .broke r => parseOutcome r

/-- A full run of the request wrapper: the retry loop started in its
initial state (App.jsx lines 106-109: `response = null`, `delay = 1000`,
`retries = 0`) followed by the post-loop classification. -/
def runInfer (script : Nat → FetchResult) : InferResult :=
  let lr := runLoop script 0 0 baseDelay none 0 []
  ⟨classify lr, lr⟩

/-- One part of the request `contents` array (App.jsx lines 90-98):
either the text prompt or the inline image data. -/
inductive Part where
  | text (t : String)
  | inlineData (mimeType : String) (data : String)
deriving Repr, DecidableEq

/-- One element of `contents` (App.jsx lines 87-100). -/
structure Content where
  role : String
  parts : List Part
deriving Repr, DecidableEq

/-- The JSON request body `payload` (App.jsx lines 86-101). -/
structure Payload where
  contents : List Content
deriving Repr, DecidableEq

/-- The fixed instruction prompt (App.jsx line 83). -/
def promptText : String :=
  "Describe this image in a concise and detailed manner for alt text purposes. Focus on key visual elements, colors, and the subject matter. Start directly with the description without any introductory phrases like \x27The image shows...\x27"

/-- Construction of the request body (App.jsx lines 86-101): the fixed
prompt and the image bytes and MIME type, embedded verbatim with no
inspection or transformation. -/
def buildPayload (base64Data mimeType : String) : Payload :=
  ⟨[⟨"user", [Part.text promptText, Part.inlineData mimeType base64Data]⟩]⟩

/-- A full `generateAltText` run: the request body sent on every fetch,
and the loop/parse result.  The body is built unconditionally (lines
82-101) — there is no validation of `base64Data` or `mimeType` before
the loop issues its first fetch. -/
structure GenResult where
  request : Payload
  result : InferResult
deriving Repr, DecidableEq

/-- The function `generateAltText(base64Data, mimeType)` (App.jsx lines
77-160) run against a deterministic mock endpoint `script`. -/
def generateAltText (base64Data mimeType : String)
    (script : Nat → FetchResult) : GenResult :=
  ⟨buildPayload base64Data mimeType, runInfer script⟩



/-- Mock endpoint answering every call with HTTP 429 and a body with no
generated-text field. -/
def all429Script : Nat → FetchResult := fun _ => FetchResult.resp ⟨429, none⟩

/-- Mock endpoint answering every call with HTTP 429 and a body that
does contain a string at the fixed text path. -/
def all429WithTextScript : Nat → FetchResult :=
  fun _ => FetchResult.resp ⟨429, some ("Resource exhausted")⟩

/-- Mock endpoint on which every call fails at transport level. -/
def allErrScript : Nat → FetchResult := fun _ => FetchResult.transportError

/-- Mock endpoint: two rate-limited calls, then success. -/
def twice429Script : Nat → FetchResult := fun i =>
  if i < 2 then FetchResult.resp ⟨429, none⟩
  else FetchResult.resp ⟨200, some ("a cat")⟩

/-- Mock endpoint: HTTP 500 on the first call, then success. -/
def status500Script : Nat → FetchResult := fun j =>
  if j = 0 then FetchResult.resp ⟨500, none⟩
  else FetchResult.resp ⟨200, some ("a sunset")⟩

/-- Mock endpoint: transport error on the first call, then success. -/
def transportThenOkScript : Nat → FetchResult := fun j =>
  if j = 0 then FetchResult.transportError
  else FetchResult.resp ⟨200, some ("a sunset")⟩

/-- Mock endpoint: immediate success with an empty text field. -/
def emptyTextScript : Nat → FetchResult := fun _ => FetchResult.resp ⟨200, none⟩

/-- Mock endpoint: immediate success with a plain description. -/
def plainOkScript : Nat → FetchResult := fun _ => FetchResult.resp ⟨200, some ("a dog")⟩

/-- Mock endpoint: transport error first, success with a description on
the second call. -/
def errThenOkScript : Nat → FetchResult := fun j =>
  if j = 0 then FetchResult.transportError
  else FetchResult.resp ⟨200, some ("a red bicycle")⟩

/-- Trace invariant of the retry loop: the retry counter stays within the
budget, the recorded waits are exactly the successive doublings of the
base delay, the final delay equals the base doubled once per wait, and
the number of waits accounts for every retry increment except the one of
a terminal rethrow. -/
def LoopInv (lr : LoopResult) : Prop :=
  lr.finalRetries ≤ maxRetries ∧
  lr.waits = (List.range lr.waits.length).map (fun i => baseDelay * 2 ^ i) ∧
  lr.finalDelay = baseDelay * 2 ^ lr.waits.length ∧
  lr.waits.length + (if lr.exit = LoopExit.threw then 1 else 0) = lr.finalRetries


theorem respOk_iff (r : Response) :
    respOk r = true ↔ 200 ≤ r.status ∧ r.status ≤ 299 := by
  simp [respOk]

theorem respOk_ne_429 (r : Response) (h : respOk r = true) : r.status ≠ 429 := by
  rcases (respOk_iff r).1 h with ⟨_, h2⟩
  omega

theorem runLoop_inv (script : Nat → FetchResult) :
    ∀ callIdx retries delay response calls waits,
    waits.length = retries →
    delay = baseDelay * 2 ^ retries →
    waits = (List.range retries).map (fun i => baseDelay * 2 ^ i) →
    retries ≤ maxRetries →
    LoopInv (runLoop script callIdx retries delay response calls waits) := by
  intro callIdx retries delay response calls waits
  induction callIdx, retries, delay, response, calls, waits using runLoop.induct script with
  | case1 callIdx retries delay response calls waits hlt hs hmax =>
      intro h1 h2 h3 _
      rw [runLoop.eq_def]
      simp only [dif_pos hlt, hs, if_pos hmax]
      refine ⟨?_, ?_, ?_, ?_⟩
      · simp only [maxRetries] at hlt ⊢; omega
      · rw [h1]; exact h3
      · rw [h1]; exact h2
      · simp [h1]
  | case2 callIdx retries delay response calls waits hlt hs hmax ih =>
      intro h1 h2 h3 _
      rw [runLoop.eq_def]
      simp only [dif_pos hlt, hs, if_neg hmax]
      apply ih
      · simp [h1]
      · rw [h2]; ring
      · rw [List.range_succ, List.map_append, ← h3, h2]; simp
      · simp only [maxRetries] at hlt ⊢; omega
  | case3 callIdx retries delay response calls waits hlt r hs h429 ih =>
      intro h1 h2 h3 _
      rw [runLoop.eq_def]
      simp only [dif_pos hlt, hs, if_pos h429]
      apply ih
      · simp [h1]
      · rw [h2]; ring
      · rw [List.range_succ, List.map_append, ← h3, h2]; simp
      · simp only [maxRetries] at hlt ⊢; omega
  | case4 callIdx retries delay response calls waits hlt r hs h429 hok =>
      intro h1 h2 h3 _
      rw [runLoop.eq_def]
      simp only [dif_pos hlt, hs, if_neg h429, if_pos hok]
      refine ⟨?_, ?_, ?_, ?_⟩
      · simp only [maxRetries] at hlt ⊢; omega
      · rw [h1]; exact h3
      · rw [h1]; exact h2
      · simp [h1]
  | case5 callIdx retries delay response calls waits hlt r hs h429 hok hmax =>
      intro h1 h2 h3 _
      rw [runLoop.eq_def]
      simp only [dif_pos hlt, hs, if_neg h429, if_neg hok, if_pos hmax]
      refine ⟨?_, ?_, ?_, ?_⟩
      · simp only [maxRetries] at hlt ⊢; omega
      · rw [h1]; exact h3
      · rw [h1]; exact h2
      · simp [h1]
  | case6 callIdx retries delay response calls waits hlt r hs h429 hok hmax ih =>
      intro h1 h2 h3 _
      rw [runLoop.eq_def]
      simp only [dif_pos hlt, hs, if_neg h429, if_neg hok, if_neg hmax]
      apply ih
      · simp [h1]
      · rw [h2]; ring
      · rw [List.range_succ, List.map_append, ← h3, h2]; simp
      · simp only [maxRetries] at hlt ⊢; omega
  | case7 callIdx retries delay response calls waits hlt =>
      intro h1 h2 h3 h4
      rw [runLoop.eq_def]
      simp only [dif_neg hlt]
      refine ⟨h4, ?_, ?_, ?_⟩
      · rw [h1]; exact h3
      · rw [h1]; exact h2
      · simp [h1]

theorem runLoop_calls_mono (script : Nat → FetchResult) :
    ∀ callIdx retries delay response calls waits,
    calls ≤ (runLoop script callIdx retries delay response calls waits).calls := by
  intro callIdx retries delay response calls waits
  induction callIdx, retries, delay, response, calls, waits using runLoop.induct script with
  | case1 callIdx retries delay response calls waits hlt hs hmax =>
      rw [runLoop.eq_def]; simp only [dif_pos hlt, hs, if_pos hmax]; omega
  | case2 callIdx retries delay response calls waits hlt hs hmax ih =>
      rw [runLoop.eq_def]; simp only [dif_pos hlt, hs, if_neg hmax]; omega
  | case3 callIdx retries delay response calls waits hlt r hs h429 ih =>
      rw [runLoop.eq_def]; simp only [dif_pos hlt, hs, if_pos h429]; omega
  | case4 callIdx retries delay response calls waits hlt r hs h429 hok =>
      rw [runLoop.eq_def]; simp only [dif_pos hlt, hs, if_neg h429, if_pos hok]; omega
  | case5 callIdx retries delay response calls waits hlt r hs h429 hok hmax =>
      rw [runLoop.eq_def]; simp only [dif_pos hlt, hs, if_neg h429, if_neg hok, if_pos hmax]; omega
  | case6 callIdx retries delay response calls waits hlt r hs h429 hok hmax ih =>
      rw [runLoop.eq_def]; simp only [dif_pos hlt, hs, if_neg h429, if_neg hok, if_neg hmax]; omega
  | case7 callIdx retries delay response calls waits hlt =>
      rw [runLoop.eq_def]; simp only [dif_neg hlt]; omega

theorem runLoop_calls_first (script : Nat → FetchResult)
    (callIdx retries delay : Nat) (response : Option Response)
    (calls : Nat) (waits : List Nat) (hlt : retries < maxRetries) :
    calls + 1 ≤ (runLoop script callIdx retries delay response calls waits).calls := by
  rw [runLoop.eq_def]
  simp only [dif_pos hlt]
  cases hs : script callIdx with
  | transportError =>
      by_cases hmax : maxRetries ≤ retries + 1
      · simp [hmax]
      · simp only [if_neg hmax]
        exact runLoop_calls_mono script _ _ _ _ _ _
  | resp r =>
      by_cases h429 : r.status = 429
      · simp only [if_pos h429]
        exact runLoop_calls_mono script _ _ _ _ _ _
      · by_cases hok : respOk r
        · simp [h429, hok]
        · by_cases hmax : maxRetries ≤ retries + 1
          · simp [h429, hok, hmax]
          · simp only [if_neg h429, hok, Bool.false_eq_true, if_false, if_neg hmax]
            exact runLoop_calls_mono script _ _ _ _ _ _

/-- After `k` rate-limited responses followed by a successful one, the
loop breaks with the successful response, having issued `k + 1` calls
and waited the `k` successive doublings of the entry delay. -/
theorem runLoop_429s_then_ok :
    ∀ (k : Nat) (script : Nat → FetchResult) (callIdx retries delay : Nat)
      (response : Option Response) (calls : Nat) (waits : List Nat) (r : Response),
    retries + k < maxRetries →
    (∀ i, i < k → ∃ q, script (callIdx + i) = FetchResult.resp q ∧ q.status = 429) →
    script (callIdx + k) = FetchResult.resp r →
    respOk r = true →
    runLoop script callIdx retries delay response calls waits =
      ⟨LoopExit.broke r, calls + k + 1,
       waits ++ (List.range k).map (fun i => 2 ^ i * delay),
       retries + k, 2 ^ k * delay⟩ := by
  intro k
  induction k with
  | zero =>
      intro script callIdx retries delay response calls waits r hk h429s hsucc hok
      rw [runLoop.eq_def]
      have hlt : retries < maxRetries := by omega
      rw [Nat.add_zero] at hsucc
      simp only [dif_pos hlt, hsucc, if_neg (respOk_ne_429 r hok), if_pos hok]
      simp
  | succ k ih =>
      intro script callIdx retries delay response calls waits r hk h429s hsucc hok
      obtain ⟨q, hq, hq429⟩ := h429s 0 (Nat.succ_pos k)
      rw [Nat.add_zero] at hq
      rw [runLoop.eq_def]
      have hlt : retries < maxRetries := by omega
      simp only [dif_pos hlt, hq, if_pos hq429]
      rw [ih script (callIdx + 1) (retries + 1) (2 * delay) (some q) (calls + 1)
        (waits ++ [delay]) r (by omega)
        (by
          intro i hi
          have := h429s (i + 1) (by omega)
          rwa [show callIdx + (i + 1) = callIdx + 1 + i by omega] at this)
        (by rwa [show callIdx + 1 + k = callIdx + (k + 1) by omega])
        hok]
      simp only [LoopResult.mk.injEq]
      refine ⟨trivial, by omega, ?_, by omega, by ring⟩
      rw [List.append_assoc]
      congr 1
      simp only [List.range_succ_eq_map, List.map_cons, List.map_map]
      simp only [pow_zero, one_mul, List.singleton_append]
      congr 1
      refine List.map_congr_left ?_
      intro a _
      simp [Function.comp, pow_succ]
      ring

/-- Runs of the loop from states that differ only in the carried
`response` value, against endpoints that agree from the current call
index on, produce the same trace; the carried value can resurface only
when the loop is entered with the budget already exhausted, in which
case each run returns its own carried response unchanged. -/
theorem runLoop_response_irrel :
    ∀ (n : Nat) (script1 script2 : Nat → FetchResult)
      (callIdx retries delay : Nat) (resp1 resp2 : Option Response)
      (calls : Nat) (waits : List Nat),
    maxRetries - retries ≤ n →
    (∀ j, callIdx ≤ j → script1 j = script2 j) →
    runLoop script1 callIdx retries delay resp1 calls waits =
      runLoop script2 callIdx retries delay resp2 calls waits ∨
    (maxRetries ≤ retries ∧
     runLoop script1 callIdx retries delay resp1 calls waits =
       ⟨LoopExit.condFalse resp1, calls, waits, retries, delay⟩ ∧
     runLoop script2 callIdx retries delay resp2 calls waits =
       ⟨LoopExit.condFalse resp2, calls, waits, retries, delay⟩) := by
  intro n
  induction n with
  | zero =>
      intro script1 script2 callIdx retries delay resp1 resp2 calls waits hn hagree
      have hge : maxRetries ≤ retries := by omega
      have hlt : ¬ retries < maxRetries := by omega
      right
      refine ⟨hge, ?_, ?_⟩ <;> (rw [runLoop.eq_def]; simp [dif_neg hlt])
  | succ n ih =>
      intro script1 script2 callIdx retries delay resp1 resp2 calls waits hn hagree
      by_cases hlt : retries < maxRetries
      · have hs : script2 callIdx = script1 callIdx := (hagree callIdx le_rfl).symm
        have hagree1 : ∀ j, callIdx + 1 ≤ j → script1 j = script2 j := by
          intro j hj; exact hagree j (by omega)
        rw [runLoop.eq_def script1, runLoop.eq_def script2]
        simp only [dif_pos hlt, hs]
        cases h1 : script1 callIdx with
        | transportError =>
            by_cases hmax : maxRetries ≤ retries + 1
            · left; simp [hmax]
            · simp only [if_neg hmax]
              rcases ih script1 script2 (callIdx + 1) (retries + 1) (2 * delay)
                  resp1 resp2 (calls + 1) (waits ++ [delay]) (by omega) hagree1 with
                heq | ⟨hge, _, _⟩
              · left; exact heq
              · omega
        | resp r =>
            by_cases h429 : r.status = 429
            · simp only [if_pos h429]
              rcases ih script1 script2 (callIdx + 1) (retries + 1) (2 * delay)
                  (some r) (some r) (calls + 1) (waits ++ [delay]) (by omega) hagree1 with
                heq | ⟨_, he1, he2⟩
              · left; exact heq
              · left; rw [he1, he2]
            · simp only [if_neg h429]
              by_cases hok : respOk r
              · left; simp [hok]
              · simp only [hok, Bool.false_eq_true, if_false]
                by_cases hmax : maxRetries ≤ retries + 1
                · left; simp [hmax]
                · simp only [if_neg hmax]
                  rcases ih script1 script2 (callIdx + 1) (retries + 1) (2 * delay)
                      (some r) (some r) (calls + 1) (waits ++ [delay]) (by omega) hagree1 with
                    heq | ⟨_, he1, he2⟩
                  · left; exact heq
                  · left; rw [he1, he2]
      · right
        refine ⟨by omega, ?_, ?_⟩ <;> (rw [runLoop.eq_def]; simp [dif_neg hlt])

theorem parseOutcome_ne_exhausted (r : Response) :
    parseOutcome r ≠ Outcome.exhaustedNoResponse := by
  unfold parseOutcome
  rcases r.text with _ | t
  · simp
  · by_cases ht : t = "" <;> simp [ht]

theorem parseOutcome_ne_propagated (r : Response) :
    parseOutcome r ≠ Outcome.propagatedError := by
  unfold parseOutcome
  rcases r.text with _ | t
  · simp
  · by_cases ht : t = "" <;> simp [ht]

theorem classify_exhausted_iff (lr : LoopResult) :
    classify lr = Outcome.exhaustedNoResponse ↔
      lr.exit = LoopExit.condFalse none := by
  unfold classify
  rcases hx : lr.exit with r | op | _
  · simp [parseOutcome_ne_exhausted r]
  · rcases op with _ | r
    · simp
    · simp [parseOutcome_ne_exhausted r]
  · simp

theorem runInfer_loop (script : Nat → FetchResult) :
    (runInfer script).loop = runLoop script 0 0 baseDelay none 0 [] := rfl

theorem runInfer_outcome (script : Nat → FetchResult) :
    (runInfer script).outcome = classify (runLoop script 0 0 baseDelay none 0 []) := rfl

/-- C1: the claim says that for five consecutive HTTP 429 responses,
`generateAltText` reports the exhausted-retries terminal failure after
exactly 5 calls.  The call count is right, but the failure is not: the
loop leaves the last 429 `Response` object in `response`, so the
line-141 null check does not fire and the 429 body is parsed like a
successful one — yielding the no-description outcome (or even a success
when the rate-limit body happens to contain text at the fixed path). -/
theorem five_429s_bypass_exhausted_retries_error :
    runInfer all429Script =
      ⟨Outcome.noDescription,
       ⟨LoopExit.condFalse (some ⟨429, none⟩), 5,
        [1000, 2000, 4000, 8000, 16000], 5, 32000⟩⟩ ∧
    (runInfer all429Script).outcome ≠ Outcome.exhaustedNoResponse ∧
    (runInfer all429WithTextScript).outcome =
      Outcome.success ("Resource exhausted") := by
  refine ⟨?_, ?_, ?_⟩
  · simp [runInfer, classify, runLoop.eq_def, all429Script, maxRetries,
      baseDelay, parseOutcome]
  · simp [runInfer, classify, runLoop.eq_def, all429Script, maxRetries,
      baseDelay, parseOutcome]
  · simp [runInfer, classify, runLoop.eq_def, all429WithTextScript, maxRetries,
      baseDelay, parseOutcome]

/-- C3 counterexample: on an endpoint whose every call fails at
transport level, the run records five retryable failures
(finalRetries = 5) but the delay is doubled only four times, ending at
16000 = 1000·2^4 rather than 1000·2^5: the terminal failure of the
catch path rethrows before reaching the doubling, so the delay does not
strictly double after every retryable failure. -/
theorem delay_not_doubled_on_terminal_failure :
    (runInfer allErrScript).loop.finalRetries = 5 ∧
    (runInfer allErrScript).loop.waits = [1000, 2000, 4000, 8000] ∧
    (runInfer allErrScript).loop.finalDelay = 16000 ∧
    (runInfer allErrScript).loop.finalDelay ≠ baseDelay * 2 ^ 5 := by
  refine ⟨?_, ?_, ?_, ?_⟩ <;>
    simp [runInfer, runLoop.eq_def, allErrScript, maxRetries, baseDelay]

/-- C5: when the first response has a success status but the text field
at the fixed path is absent or empty, the run returns the distinct
no-description outcome after exactly one call, with no retry and no
backoff wait. -/
theorem empty_description_no_retry (script : Nat → FetchResult) (r : Response)
    (h0 : script 0 = FetchResult.resp r) (hok : respOk r = true)
    (htext : r.text = none ∨ r.text = some "") :
    (runInfer script).outcome = Outcome.noDescription ∧
    (runInfer script).loop.calls = 1 ∧
    (runInfer script).loop.waits = [] := by
  have hrun : runLoop script 0 0 baseDelay none 0 [] =
      ⟨LoopExit.broke r, 1, [], 0, baseDelay⟩ := by
    rw [runLoop.eq_def]
    simp [maxRetries, h0, respOk_ne_429 r hok, hok]
  rcases htext with ht | ht <;>
    simp [runInfer, hrun, classify, parseOutcome, ht]

theorem empty_description_no_retry_witness :
    (runInfer emptyTextScript).outcome = Outcome.noDescription ∧
    (runInfer emptyTextScript).loop.calls = 1 ∧
    (runInfer emptyTextScript).loop.waits = [] :=
  empty_description_no_retry emptyTextScript ⟨200, none⟩ rfl (by decide)
    (Or.inl rfl)

/-- C7: a transport error on the first call followed by a successful
response with a non-empty description on the second yields that
description after exactly two calls, with a single 1000 ms wait between
them. -/
theorem transport_error_then_success (script : Nat → FetchResult)
    (r : Response) (d : String)
    (h0 : script 0 = FetchResult.transportError)
    (h1 : script 1 = FetchResult.resp r) (hok : respOk r = true)
    (htext : r.text = some d) (hd : d ≠ "") :
    (runInfer script).outcome = Outcome.success d ∧
    (runInfer script).loop.calls = 2 ∧
    (runInfer script).loop.waits = [baseDelay] := by
  have hrun : runLoop script 0 0 baseDelay none 0 [] =
      ⟨LoopExit.broke r, 2, [baseDelay], 1, 2 * baseDelay⟩ := by
    rw [runLoop.eq_def]
    simp only [maxRetries, baseDelay] at *
    simp [h0, h1, respOk_ne_429 r hok, hok, runLoop.eq_def, maxRetries]
  simp [runInfer, hrun, classify, parseOutcome, htext, hd]

theorem transport_error_then_success_witness :
    (runInfer errThenOkScript).outcome = Outcome.success ("a red bicycle") ∧
    (runInfer errThenOkScript).loop.calls = 2 ∧
    (runInfer errThenOkScript).loop.waits = [baseDelay] :=
  transport_error_then_success errThenOkScript ⟨200, some ("a red bicycle")⟩
    ("a red bicycle") rfl rfl (by decide) rfl (by decide)

/-- C2: for any k < 5 rate-limited responses followed by a successful
response carrying a non-empty description, the run returns that
description, issues exactly k+1 calls, and waits 1000·2^i ms between
call i+1 and call i+2 for i = 0..k-1. -/
theorem retry_succeeds_after_k_rate_limits (k : Nat)
    (script : Nat → FetchResult) (d : String)
    (hk : k < maxRetries)
    (h429 : ∀ i, i < k → ∃ q, script i = FetchResult.resp q ∧ q.status = 429)
    (hsucc : ∃ r, script k = FetchResult.resp r ∧ respOk r = true ∧
      r.text = some d)
    (hd : d ≠ "") :
    (runInfer script).outcome = Outcome.success d ∧
    (runInfer script).loop.calls = k + 1 ∧
    (runInfer script).loop.waits =
      (List.range k).map (fun i => baseDelay * 2 ^ i) := by
  obtain ⟨r, hr, hok, htext⟩ := hsucc
  have hrun := runLoop_429s_then_ok k script 0 0 baseDelay none 0 [] r
    (by simpa using hk) (by simpa using h429) (by simpa using hr) hok
  refine ⟨?_, ?_, ?_⟩
  · simp [runInfer, hrun, classify, parseOutcome, htext, hd]
  · simp [runInfer, hrun]
  · simp only [runInfer, hrun, List.nil_append]
    refine List.map_congr_left ?_
    intro a _
    ring

theorem retry_succeeds_after_k_rate_limits_witness :
    (runInfer twice429Script).outcome = Outcome.success ("a cat") ∧
    (runInfer twice429Script).loop.calls = 3 ∧
    (runInfer twice429Script).loop.waits = [1000, 2000] := by
  have h := retry_succeeds_after_k_rate_limits 2 twice429Script ("a cat")
    (by decide)
    (by
      intro i hi
      exact ⟨⟨429, none⟩, by simp [twice429Script, hi], rfl⟩)
    ⟨⟨200, some ("a cat")⟩, by simp [twice429Script], by decide, rfl⟩
    (by decide)
  refine ⟨h.1, h.2.1, ?_⟩
  rw [h.2.2]
  simp [baseDelay, List.range_succ]

/-- C3 (amended): throughout every run, the retry counter never exceeds
5, the delay starts at 1000 ms and is doubled exactly once per backoff
wait — so the recorded waits are exactly 1000, 2000, 4000, ... and the
final delay is 1000·2^(number of waits) — and every retryable failure
is followed by such a doubling except the terminal one on the
thrown-error path, which rethrows without waiting or doubling (the wait
count falls one short of the failure count exactly when the run ends by
a rethrow). -/
theorem retry_counter_and_backoff_invariant (script : Nat → FetchResult) :
    (runInfer script).loop.finalRetries ≤ maxRetries ∧
    (runInfer script).loop.waits =
      (List.range (runInfer script).loop.waits.length).map
        (fun i => baseDelay * 2 ^ i) ∧
    (runInfer script).loop.finalDelay =
      baseDelay * 2 ^ (runInfer script).loop.waits.length ∧
    (runInfer script).loop.waits.length +
        (if (runInfer script).loop.exit = LoopExit.threw then 1 else 0) =
      (runInfer script).loop.finalRetries := by
  have h := runLoop_inv script 0 0 baseDelay none 0 [] rfl (by simp)
    (by simp) (by simp [maxRetries])
  rw [runInfer_loop]
  exact h

/-- C4: a non-success HTTP status other than 429 lands in the same catch
block as a transport-level failure: replacing the one by the other at
any call position, in any loop state, yields the identical loop result —
same attempt counter, same delay evolution, same waits and call count —
so the two failure classes consume one unified budget of 5 attempts. -/
theorem status_error_transport_error_same_budget
    (script1 script2 : Nat → FetchResult) (idx retries delay : Nat)
    (response : Option Response) (calls : Nat) (waits : List Nat)
    (r : Response)
    (h429 : r.status ≠ 429) (hok : respOk r = false)
    (h1 : script1 idx = FetchResult.resp r)
    (h2 : script2 idx = FetchResult.transportError)
    (hagree : ∀ j, j ≠ idx → script1 j = script2 j) :
    runLoop script1 idx retries delay response calls waits =
      runLoop script2 idx retries delay response calls waits := by
  by_cases hlt : retries < maxRetries
  · rw [runLoop.eq_def script1, runLoop.eq_def script2]
    simp only [dif_pos hlt, h1, h2, if_neg h429, hok, Bool.false_eq_true,
      if_false]
    by_cases hmax : maxRetries ≤ retries + 1
    · simp [hmax]
    · simp only [if_neg hmax]
      rcases runLoop_response_irrel maxRetries script1 script2 (idx + 1)
          (retries + 1) (2 * delay) (some r) response (calls + 1)
          (waits ++ [delay]) (by omega)
          (fun j hj => hagree j (by omega)) with heq | ⟨hge, _, _⟩
      · exact heq
      · exact absurd hge hmax
  · rw [runLoop.eq_def script1, runLoop.eq_def script2]
    simp [dif_neg hlt]

theorem status_error_transport_error_same_budget_witness :
    runLoop status500Script 0 0 1000 none 0 [] =
      runLoop transportThenOkScript 0 0 1000 none 0 [] := by
  refine status_error_transport_error_same_budget status500Script
    transportThenOkScript 0 0 1000 none 0 [] ⟨500, none⟩ (by decide)
    (by decide) rfl rfl ?_
  intro j hj
  simp [status500Script, transportThenOkScript, hj]

/-- C6: the generic exhausted-retries failure (the line-142 throw) is
reported exactly when the retry loop exits by its condition with the
`response` variable still null — never on a thrown error, never when any
response object was obtained. -/
theorem exhausted_retries_error_iff_null_response
    (script : Nat → FetchResult) :
    (runInfer script).outcome = Outcome.exhaustedNoResponse ↔
      (runLoop script 0 0 baseDelay none 0 []).exit =
        LoopExit.condFalse none := by
  rw [runInfer_outcome]
  exact classify_exhausted_iff (runLoop script 0 0 baseDelay none 0 [])

/-- C8: the request body embeds the image bytes and MIME type verbatim
next to the fixed prompt, for every payload including the empty one, and
no local validation short-circuits the run before the first network
call: at least one call is always issued. -/
theorem payload_passed_through_unvalidated
    (base64Data mimeType : String) (script : Nat → FetchResult) :
    (generateAltText base64Data mimeType script).request =
      ⟨[⟨"user", [Part.text promptText,
        Part.inlineData mimeType base64Data]⟩]⟩ ∧
    1 ≤ (generateAltText base64Data mimeType script).result.loop.calls := by
  constructor
  · rfl
  · have h := runLoop_calls_first script 0 0 baseDelay none 0 []
      (by simp [maxRetries])
    simpa [generateAltText, runInfer_loop] using h

/-- C9: the request wrapper is deterministic — two runs with identical
payloads against the same deterministic mock endpoint produce identical
results, request body and outcome classification included. -/
theorem infer_deterministic (d1 m1 d2 m2 : String)
    (s1 s2 : Nat → FetchResult)
    (hd : d1 = d2) (hm : m1 = m2) (hs : ∀ i, s1 i = s2 i) :
    generateAltText d1 m1 s1 = generateAltText d2 m2 s2 := by
  have hfun : s1 = s2 := funext hs
  rw [hd, hm, hfun]

theorem infer_deterministic_witness :
    generateAltText ("aW1n") ("image/png") plainOkScript =
      generateAltText ("aW1n") ("image/png") plainOkScript :=
  infer_deterministic ("aW1n") ("image/png") ("aW1n") ("image/png")
    plainOkScript plainOkScript rfl rfl (fun _ => rfl)

/-- C10: every run performs at most 5 backoff waits, the i-th wait is
1000·2^i ms, so no single wait exceeds 16000 ms and the total backoff
time never exceeds 31000 ms. -/
theorem backoff_waits_bounded (script : Nat → FetchResult) :
    (runInfer script).loop.waits.length ≤ 5 ∧
    (runInfer script).loop.waits =
      (List.range (runInfer script).loop.waits.length).map
        (fun i => 1000 * 2 ^ i) ∧
    (runInfer script).loop.waits.all (fun w => w ≤ 16000) = true ∧
    (runInfer script).loop.waits.sum ≤ 31000 := by
  obtain ⟨h1, h2, h3, h4⟩ := runLoop_inv script 0 0 baseDelay none 0 [] rfl
    (by simp) (by simp) (by simp [maxRetries])
  rw [runInfer_loop]
  set lr := runLoop script 0 0 baseDelay none 0 [] with hlr
  have hlen : lr.waits.length ≤ 5 := by
    have hle : lr.waits.length ≤ lr.finalRetries := h4 ▸ Nat.le_add_right _ _
    simp only [maxRetries] at h1
    omega
  have hbound : ∀ n : Nat, n ≤ 5 →
      (((List.range n).map (fun i => baseDelay * 2 ^ i)).all
        (fun w => w ≤ 16000) = true) ∧
      ((List.range n).map (fun i => baseDelay * 2 ^ i)).sum ≤ 31000 := by
    intro n hn
    interval_cases n <;> decide
  refine ⟨hlen, ?_, ?_, ?_⟩
  · simpa [baseDelay] using h2
  · rw [h2]
    exact (hbound lr.waits.length hlen).1
  · rw [h2]
    exact (hbound lr.waits.length hlen).2

end AltTextGen
